import Mathlib

/-!
# Verification of the timelapser activity monitor and webcam controller

Shallow embedding of the decision logic of `activity_monitor.py` and
`webcam_controller.py` (MrSco/timelapser), together with theorems settling
the specification claims about them.

External effects (regular-expression engine, camera hardware, the ffmpeg
process, the filesystem) are modelled as explicit parameters or oracles;
all decision logic is translated statement by statement from the Python
source.
-/

namespace Timelapser

/-! ## Python-style string helpers

The Python builtins used by the source (`in`, `str.split`, `str.isdigit`,
`int(...)`, `str.replace`, `str.startswith`, `str.lower`) are modelled over
the character list of a Lean `String`.  Unicode-only corner cases of
`str.isdigit`/`int` (e.g. superscript digits) are outside the model, which
treats digits as ASCII `0`-`9`. -/

/-- Substring test on character lists: does `needle` occur contiguously? -/
def seqIsInfix (needle : List Char) : List Char → Bool
  | [] => needle.isEmpty
  | c :: rest => needle.isPrefixOf (c :: rest) || seqIsInfix needle rest

/-- Python `needle in hay` for strings: substring containment. -/
def strContains (hay needle : String) : Bool :=
  seqIsInfix needle.toList hay.toList

/-- Python `s.startswith(pre)`. -/
def pyStartsWith (s pre : String) : Bool :=
  pre.toList.isPrefixOf s.toList

/-- Value of a list of ASCII digit characters. -/
def digitsToNat (l : List Char) : Nat :=
  l.foldl (fun acc c => acc * 10 + (c.toNat - ('0').toNat)) 0

/-- Python `s.isdigit()` (ASCII model): non-empty and all digits. -/
def isDigitStr (s : String) : Bool :=
  !s.toList.isEmpty && s.toList.all Char.isDigit

/-- Python `int(s)` (ASCII model): optional surrounding whitespace, optional
sign, then a non-empty digit run; `none` models `ValueError`. -/
def pyInt? (s : String) : Option Int :=
  let l := s.toList.dropWhile Char.isWhitespace
  let l := (l.reverse.dropWhile Char.isWhitespace).reverse
  match l with
  | '+' :: rest =>
    if !rest.isEmpty && rest.all Char.isDigit then some (digitsToNat rest) else none
  | '-' :: rest =>
    if !rest.isEmpty && rest.all Char.isDigit then some (-(digitsToNat rest : Int)) else none
  | rest =>
    if !rest.isEmpty && rest.all Char.isDigit then some (digitsToNat rest) else none

/-- Helper for `pySplit`: split a character list at every separator. -/
def pySplitAux (sep : Char) : List Char → List Char → List (List Char)
  | [], acc => [acc.reverse]
  | x :: xs, acc =>
    if x = sep then acc.reverse :: pySplitAux sep xs []
    else pySplitAux sep xs (x :: acc)

/-- Python `s.split(sep)` for a one-character separator. -/
def pySplit (sep : Char) (s : String) : List String :=
  (pySplitAux sep s.toList []).map fun l => ⟨l⟩

/-- Python `s.lower()` (ASCII model). -/
def pyLower (s : String) : String :=
  ⟨s.toList.map Char.toLower⟩

/-! ## Activity monitor (`activity_monitor.py`)

`is_ignored_activity` calls Python's `re.search`; the regex engine is an
external library, modelled by an oracle: `some m` is a successfully
compiled pattern with match predicate `m`, `none` models `re.error`. -/

/-- Abstraction of Python's `re` module: compiling a pattern either yields a
match predicate or fails (`re.error`). -/
abbrev RegexOracle := String → Option (String → Bool)

/-- Oracle interpretation for metacharacter-free patterns, where
`re.search(p, s)` is exactly substring containment. -/
def litRegex : RegexOracle := fun p => some fun s => strContains s p

/-- `ActivityMonitor.is_ignored_activity` (activity_monitor.py lines 79-95):
for each pattern, try it as a regex; on `re.error` fall back to a plain
substring test.  Empty file or empty pattern list is never ignored. -/
def is_ignored_activity (re : RegexOracle) (ignored_patterns : List String)
    (current_file : String) : Bool :=
  if current_file = "" ∨ ignored_patterns = [] then false
  else
    ignored_patterns.any fun pattern =>
      match re pattern with
      | some search => search current_file
      | none => strContains current_file pattern

/-- Callback emitted by the monitor on the webcam controller. -/
inductive Event
  | stop
  | start (file : Option String)
  deriving DecidableEq, Repr

/-- A status payload: both keys are optional (`dict.get`). -/
structure Status where
  running : Option Bool
  file : Option String

/-- The monitor's mutable state relevant to `_handle_status_update`. -/
structure MonitorState where
  last_activity_running : Bool
  last_current_file : Option String
  ignored_patterns : List String

/-- Python truthiness of the `current_file` value (`None` and `""` falsy). -/
def fileTruthy : Option String → Bool
  | none => false
  | some s => s ≠ ""

/-- `ActivityMonitor._handle_status_update` (activity_monitor.py lines
259-305), as a function from state and payload to new state and emitted
callbacks.  Note: as in the source, `last_current_file` is assigned the new
file *before* the file-change comparison, so the comparison in the restart
branch reads the already-updated value. -/
def handle_status_update (re : RegexOracle) (s : MonitorState) (status : Status) :
    MonitorState × List Event :=
  let is_running := status.running.getD false
  let current_file := status.file
  if !is_running then
    ({ s with last_activity_running := false, last_current_file := none },
      if s.last_activity_running then [Event.stop] else [])
  else
    let is_ignored := fileTruthy current_file &&
      is_ignored_activity re s.ignored_patterns (current_file.getD "")
    let s1 := { s with last_current_file := current_file }
    if is_ignored then
      if s1.last_activity_running then
        ({ s1 with last_activity_running := false }, [Event.stop])
      else (s1, [])
    else
      if !s1.last_activity_running then
        ({ s1 with last_activity_running := true }, [Event.start current_file])
      else if current_file != s1.last_current_file then
        (s1, [Event.stop, Event.start current_file])
      else (s1, [])

/-! ## Webcam controller: session lifecycle (`webcam_controller.py`)

`start_timelapse` / `stop_timelapse` / `activity_started` /
`activity_stopped` manipulate the controller's capture state under a lock;
the state machine below captures the fields they read and write.  Disk and
thread effects (session directory creation, final-frame capture) are
recorded as an effect list. -/

/-- Loosely-typed camera identifier: Python passes either an `int` index or
a string. -/
inductive CameraVal
  | int (i : Int)
  | str (s : String)
  deriving DecidableEq, Repr

/-- Controller fields read/written by the session-lifecycle methods. -/
structure ControllerState where
  is_capturing : Bool
  auto_mode : Bool
  selected_camera : Option CameraVal
  interval : ℚ
  current_session_dir : Option String
  deriving DecidableEq, Repr

/-- Observable side effect of a session-lifecycle call. -/
inductive CtlEffect
  | session_started (dir : String) (activity_file : Option String)
  | final_frame_captured
  | session_stopped
  deriving DecidableEq, Repr

/-- `WebcamController.start_timelapse` (lines 245-288): refuses when already
capturing, otherwise applies the optional argument overrides, creates a new
timestamped session directory and starts the capture thread.  `timestamp`
stands for `datetime.now().strftime(...)`. -/
def start_timelapse (c : ControllerState) (camera : Option CameraVal)
    (interval : Option ℚ) (auto_mode : Option Bool) (activity_file : Option String)
    (timestamp : String) : Bool × ControllerState × List CtlEffect :=
  if c.is_capturing then (false, c, [])
  else
    let c := { c with selected_camera := match camera with
                 | some v => some v
                 | none => c.selected_camera }
    let c := { c with interval := match interval with
                 | some v => v
                 | none => c.interval }
    let c := { c with auto_mode := match auto_mode with
                 | some v => v
                 | none => c.auto_mode }
    let dir := "timelapse_" ++ timestamp
    let c := { c with current_session_dir := some dir, is_capturing := true }
    (true, c, [CtlEffect.session_started dir activity_file])

/-- `WebcamController.stop_timelapse` (lines 290-318): refuses when idle,
otherwise captures a best-effort final frame (when a session directory
exists) and clears the capturing flag. -/
def stop_timelapse (c : ControllerState) : Bool × ControllerState × List CtlEffect :=
  if !c.is_capturing then (false, c, [])
  else
    let finalFrame := if c.current_session_dir.isSome then
        [CtlEffect.final_frame_captured] else []
    (true, { c with is_capturing := false }, finalFrame ++ [CtlEffect.session_stopped])

/-- `WebcamController.activity_started` (lines 1310-1314): auto-start only
when in auto mode and not already capturing. -/
def activity_started (c : ControllerState) (activity_file : Option String)
    (timestamp : String) : ControllerState × List CtlEffect :=
  if c.auto_mode && !c.is_capturing then
    let r := start_timelapse c none none none activity_file timestamp
    (r.2.1, r.2.2)
  else (c, [])

/-- `WebcamController.activity_stopped` (lines 1316-1320): auto-stop only
when in auto mode and currently capturing. -/
def activity_stopped (c : ControllerState) : ControllerState × List CtlEffect :=
  if c.auto_mode && c.is_capturing then
    let r := stop_timelapse c
    (r.2.1, r.2.2)
  else (c, [])

/-! ## Camera identifier normalization (`_get_camera_index`, lines 358-416) -/

/-- Python `s.replace(pat, "")`: delete every occurrence of `pat`.  Fuel is
the list length; each step either drops `pat` (non-empty) or one char. -/
def removeAllSeqAux (pat : List Char) : Nat → List Char → List Char
  | 0, l => l
  | _ + 1, [] => []
  | fuel + 1, c :: rest =>
    if !pat.isEmpty && pat.isPrefixOf (c :: rest) then
      removeAllSeqAux pat fuel ((c :: rest).drop pat.length)
    else c :: removeAllSeqAux pat fuel rest

/-- Python `s.replace(pat, "")` on strings. -/
def strRemoveAll (s pat : String) : String :=
  ⟨removeAllSeqAux pat.toList s.toList.length s.toList⟩

/-- First element of Python `s.split(sep)` (always non-empty). -/
def splitHead (sep : Char) (s : String) : String :=
  (pySplit sep s).headD ""

/-- Case 5 of `_get_camera_index` (Windows): first index whose camera name
contains the requested name, case-insensitively. -/
def firstPartialMatch (available_cameras : List String) (s : String) : Option Nat :=
  (available_cameras.enum.find? fun p => strContains (pyLower p.2) (pyLower s)).map (·.1)

/-- Cases 4 and 5 of `_get_camera_index` plus the final default: membership
in `available_cameras`, Windows partial name match, else index 0. -/
def camera_index_cases45 (platform : String) (available_cameras : List String)
    (s : String) : CameraVal :=
  if available_cameras.contains s then
    if pyStartsWith s "ip_camera_" then .str s
    else .int (available_cameras.indexOf s)
  else if platform = "Windows" then
    match firstPartialMatch available_cameras s with
    | some i => .int i
    | none => .int 0
  else .int 0

/-- `camera_to_use = camera if camera is not None else self.selected_camera`. -/
def camera_to_use (selected_camera camera : Option CameraVal) : Option CameraVal :=
  match camera with
  | some c => some c
  | none => selected_camera

/-- `WebcamController._get_camera_index` (lines 358-416): normalize a
loosely-typed camera identifier to an OpenCV index or an IP-camera string.
The fall-through of case 3's `except ValueError: pass` continues into
cases 4/5 (`camera_index_cases45`). -/
def get_camera_index (platform : String) (available_cameras : List String)
    (selected_camera : Option CameraVal) (camera : Option CameraVal) : CameraVal :=
  match camera_to_use selected_camera camera with
  | none => .int 0
  | some (.int i) => .int i
  | some (.str s) =>
    if pyStartsWith s "ip_camera_" then .str s
    else if isDigitStr s then .int (digitsToNat s.toList)
    else if s.toList.contains ':' && isDigitStr (splitHead ':' s) then
      .int (digitsToNat (splitHead ':' s).toList)
    else if platform = "Linux" && pyStartsWith s "/dev/video" then
      match pyInt? (strRemoveAll s "/dev/video") with
      | some n => .int n
      | none => camera_index_cases45 platform available_cameras s
    else camera_index_cases45 platform available_cameras s

/-! ## Resolution negotiation (`_set_camera_resolution`, lines 569-618)

The OpenCV `VideoCapture` is external hardware, abstracted as an oracle:
`tryRes w h` is the combined effect of `camera.set(WIDTH/HEIGHT)` followed
by a verification `camera.read()` — `some (aw, ah)` when a non-empty frame
was read, with the actually-reported dimensions; `none` when the read
failed, the frame was empty, or a call raised.  `defaultRes` is what
`camera.get(WIDTH/HEIGHT)` reports after all candidates failed. -/

/-- Abstract camera for resolution negotiation. -/
structure Camera where
  tryRes : Int → Int → Option (Int × Int)
  defaultRes : Int × Int

/-- `width, height = map(int, res.split('x'))`; `none` models the raised
`ValueError` (wrong number of parts or non-numeric part). -/
def parseRes (s : String) : Option (Int × Int) :=
  match pySplit 'x' s with
  | [a, b] =>
    match pyInt? a, pyInt? b with
    | some w, some h => some (w, h)
    | _, _ => none
  | _ => none

/-- One loop iteration of `_set_camera_resolution` for candidate `r`:
parse, set, verify-read; `none` means this candidate is skipped. -/
def trialRes (cam : Camera) (r : String) : Option (Int × Int) :=
  match parseRes r with
  | some (w, h) => cam.tryRes w h
  | none => none

/-- The hard-coded fallback list (line 580), descending. -/
def fallback_resolutions : List String :=
  ["1920x1080", "1280x720", "800x600", "640x480"]

/-- Candidate construction (lines 582-588): requested resolution first;
if it was already a fallback it is moved to the front, else prepended. -/
def build_candidates (resolution_str : String) : List String :=
  if fallback_resolutions.contains resolution_str then
    resolution_str :: fallback_resolutions.erase resolution_str
  else
    resolution_str :: fallback_resolutions

/-- The candidate loop (lines 591-614): first successful trial wins. -/
def try_resolutions (cam : Camera) : List String → Option (Int × Int)
  | [] => none
  | r :: rest =>
    match trialRes cam r with
    | some d => some d
    | none => try_resolutions cam rest

/-- `WebcamController._set_camera_resolution` (lines 569-618): negotiate,
falling back to the device defaults when every candidate fails. -/
def set_camera_resolution (cam : Camera) (resolution_str : String) : Int × Int :=
  match try_resolutions cam (build_candidates resolution_str) with
  | some d => d
  | none => cam.defaultRes

/-! ## Video assembly pipeline (`create_video` / `cancel_video`)

The encode run is modelled from the point the ffmpeg process has been
spawned and registered.  The process's merged progress stream is a list of
text lines; the run's end is one of three outcomes: `wait()` timed out,
the registry entry carried the `cancelled` flag, or the process exited
with some code.  Progress values are rationals standing for the Python
floats (the arithmetic involved — one division, one multiplication, a
`min` — is monotone in both domains). -/

/-- One persisted record written through `write_progress_data`; `progress`
and `error` are optional keys. -/
structure ProgressWrite where
  status : String
  progress : Option ℚ
  error : Option String
  deriving DecidableEq, Repr

/-- The regex `frame=\s*(\d+)` of `read_stderr`/`read_stdout` (lines
930/957): first position where `frame=` is followed by optional whitespace
and at least one digit; returns the digit run's value. -/
def findFrameNum : List Char → Option Nat
  | [] => none
  | c :: rest =>
    if ("frame=").toList.isPrefixOf (c :: rest) then
      let digits := (((c :: rest).drop 6).dropWhile Char.isWhitespace).takeWhile Char.isDigit
      if digits.isEmpty then findFrameNum rest else some (digitsToNat digits)
    else findFrameNum rest

/-- Line handling of the reader threads (lines 926-943): act only on lines
containing `frame=`, and only when the regex finds a frame number. -/
def parseFrameLine (line : String) : Option Nat :=
  if strContains line "frame=" then findFrameNum line.toList else none

/-- The progress percentage (line 933): `min(95, frame/total*100)`. -/
def progressPct (total_frames frame_count : Nat) : ℚ :=
  min 95 ((frame_count : ℚ) / (total_frames : ℚ) * 100)

/-- The `processing` record written for one parsed frame line (lines
936-943, progress-relevant keys). -/
def processingWrite (total_frames frame_count : Nat) : ProgressWrite :=
  ⟨"processing", some (progressPct total_frames frame_count), none⟩

/-- All `processing` records produced by draining `lines`. -/
def processing_writes (total_frames : Nat) (lines : List String) : List ProgressWrite :=
  lines.filterMap fun line => (parseFrameLine line).map (processingWrite total_frames)

/-- Registry entry for a session's encode job (`self.ffmpeg_processes`). -/
structure JobEntry where
  hasProcess : Bool
  processRunning : Bool
  cancelled : Bool
  deriving DecidableEq, Repr

/-- `del self.ffmpeg_processes[session_id]` guarded by membership. -/
def removeJob (session_id : String) (reg : List (String × JobEntry)) :
    List (String × JobEntry) :=
  reg.filter fun p => p.1 != session_id

/-- `self.ffmpeg_processes[session_id]` lookup. -/
def lookupJob (session_id : String) (reg : List (String × JobEntry)) : Option JobEntry :=
  (reg.find? fun p => p.1 == session_id).map (·.2)

/-- How the wait on the ffmpeg process ended. -/
inductive EncodeOutcome
  | timedOut
  | cancelled
  | exited (code : Int)
  deriving DecidableEq, Repr

/-- The initial record (lines 885-890). -/
def startingWrite : ProgressWrite := ⟨"starting", some 0, none⟩

/-- The timeout record (lines 1012-1018). -/
def timeoutWrite : ProgressWrite :=
  ⟨"failed", none, some "Process timed out after 10 minutes"⟩

/-- The cancelled record written by `create_video` (lines 991-998). -/
def cancelledWrite : ProgressWrite := ⟨"cancelled", some 0, none⟩

/-- The completion record (lines 1033-1040). -/
def completedWrite : ProgressWrite := ⟨"completed", some 100, none⟩

/-- Result of one encode run: persisted writes in order, whether the
process was force-killed, registry afterwards, and return truthiness. -/
structure RunResult where
  writes : List ProgressWrite
  killed : Bool
  registry : List (String × JobEntry)
  success : Bool
  deriving DecidableEq, Repr

/-- `WebcamController.create_video` (lines 884-1072) from process spawn to
return, for a session with `total_frames` frames whose progress stream is
`lines`: the initial `starting` record, then the `processing` records, then
the outcome-dependent terminal record; the registry entry is removed on
every path.  The `exited` branch writes `completed` with progress 100
without consulting the exit code (`process.wait` is not followed by a
return-code check). -/
def create_video_run (reg : List (String × JobEntry)) (session_id : String)
    (total_frames : Nat) (lines : List String) (outcome : EncodeOutcome) : RunResult :=
  let base := startingWrite :: processing_writes total_frames lines
  match outcome with
  | .timedOut => ⟨base ++ [timeoutWrite], true, removeJob session_id reg, false⟩
  | .cancelled => ⟨base ++ [cancelledWrite], false, removeJob session_id reg, false⟩
  | .exited _ => ⟨base ++ [completedWrite], false, removeJob session_id reg, true⟩

/-- The cancelled record written by `cancel_video` (lines 1145-1152). -/
def cancelledByUserWrite : ProgressWrite :=
  ⟨"cancelled", some 0, some "Video creation was cancelled by user"⟩

/-- Result of a `cancel_video` call. -/
structure CancelResult where
  ok : Bool
  registry : List (String × JobEntry)
  writes : List ProgressWrite
  deriving DecidableEq, Repr

/-- `WebcamController.cancel_video` (lines 1114-1178): unknown session →
plain failure; entry whose process is absent or already exited → failure
after deleting the stale entry; live process → mark cancelled, terminate,
write the cancelled record, delete the entry, succeed. -/
def cancel_video (reg : List (String × JobEntry)) (session_id : String) : CancelResult :=
  match lookupJob session_id reg with
  | none => ⟨false, reg, []⟩
  | some e =>
    if e.hasProcess && e.processRunning then
      ⟨true, removeJob session_id reg, [cancelledByUserWrite]⟩
    else
      ⟨false, removeJob session_id reg, []⟩

/-! ## Theorems about the activity monitor -/

/-- C1: the claim says a file change while running, not ignored and
capturing emits exactly one Stop followed by one Start.  In the source,
`last_current_file` is overwritten with the new file before the comparison
`current_file != self.last_current_file`, so the restart branch can never
fire: the handler never emits more than one callback per update, and on the
concrete trace `{running:true,file:"a"}` then `{running:true,file:"b"}`
(no ignore patterns, capture active) the second update emits nothing. -/
theorem file_change_emits_no_restart :
    (∀ (re : RegexOracle) (s : MonitorState) (st : Status),
      (handle_status_update re s st).2.length ≤ 1) ∧
    ((handle_status_update litRegex ⟨false, none, []⟩ ⟨some true, some "a"⟩).1.last_activity_running
        = true ∧
      (handle_status_update litRegex ⟨false, none, []⟩ ⟨some true, some "a"⟩).1.last_current_file
        = some "a" ∧
      (handle_status_update litRegex
          (handle_status_update litRegex ⟨false, none, []⟩ ⟨some true, some "a"⟩).1
          ⟨some true, some "b"⟩).2 = []) := by
  constructor
  · intro re s st
    unfold handle_status_update
    dsimp only
    split
    · split <;> simp
    · split
      · split <;> simp
      · split
        · simp
        · split
          · simp_all
          · simp
  · refine ⟨by decide, by decide, by decide⟩

/-- C5: with a non-empty file and a non-empty pattern list, the file is
ignored iff some pattern either matches as a compiled regex or, failing to
compile, occurs as a plain substring; an empty file or empty pattern list
is never ignored. -/
theorem is_ignored_characterization (re : RegexOracle) (patterns : List String)
    (f : String) :
    ((f ≠ "" ∧ patterns ≠ []) →
      (is_ignored_activity re patterns f = true ↔
        ∃ p ∈ patterns,
          (∃ m, re p = some m ∧ m f = true) ∨
          (re p = none ∧ strContains f p = true))) ∧
    ((f = "" ∨ patterns = []) → is_ignored_activity re patterns f = false) := by
  constructor
  · rintro ⟨hf, hp⟩
    unfold is_ignored_activity
    rw [if_neg (by tauto), List.any_eq_true]
    constructor
    · rintro ⟨p, hpmem, hpp⟩
      refine ⟨p, hpmem, ?_⟩
      rcases hre : re p with _ | m
      · exact Or.inr ⟨rfl, by rwa [hre] at hpp⟩
      · exact Or.inl ⟨m, rfl, by rwa [hre] at hpp⟩
    · rintro ⟨p, hpmem, ⟨m, hm, hmf⟩ | ⟨hm, hsub⟩⟩
      · exact ⟨p, hpmem, by rw [hm]; exact hmf⟩
      · exact ⟨p, hpmem, by rw [hm]; exact hsub⟩
  · intro h
    unfold is_ignored_activity
    rw [if_pos h]

/-- Witness for C5 at the spec's own example: pattern `"draft"`, file
`"draft_v2.txt"`, literal-regex oracle. -/
theorem is_ignored_characterization_app :
    is_ignored_activity litRegex ["draft"] "draft_v2.txt" = true :=
  ((is_ignored_characterization litRegex ["draft"] "draft_v2.txt").1
      ⟨by decide, by decide⟩).mpr
    ⟨"draft", by decide, Or.inl ⟨_, rfl, by decide⟩⟩

/-- C6: a payload whose running key is absent or false is handled as "not
running": one Stop when capture was active, nothing otherwise, no Start
ever, the remembered file is cleared and the patterns are untouched; the
handler is a total function, so missing keys cannot raise past it. -/
theorem not_running_update (re : RegexOracle) (s : MonitorState) (status : Status)
    (h : status.running = none ∨ status.running = some false) :
    (s.last_activity_running = true →
      (handle_status_update re s status).2 = [Event.stop]) ∧
    (s.last_activity_running = false →
      (handle_status_update re s status).2 = []) ∧
    (∀ f, Event.start f ∉ (handle_status_update re s status).2) ∧
    (handle_status_update re s status).1.last_current_file = none ∧
    (handle_status_update re s status).1.last_activity_running = false ∧
    (handle_status_update re s status).1.ignored_patterns = s.ignored_patterns := by
  rcases h with h | h <;>
    cases hb : s.last_activity_running <;>
      simp [handle_status_update, h, hb]

/-- Witness for C6: running key absent while capture is active. -/
theorem not_running_update_app :
    (handle_status_update litRegex ⟨true, some "a", []⟩ ⟨none, some "b"⟩).2 = [Event.stop] ∧
    (handle_status_update litRegex ⟨true, some "a", []⟩ ⟨none, some "b"⟩).1.last_current_file
      = none :=
  ⟨(not_running_update litRegex ⟨true, some "a", []⟩ ⟨none, some "b"⟩ (Or.inl rfl)).1 rfl,
    (not_running_update litRegex ⟨true, some "a", []⟩ ⟨none, some "b"⟩ (Or.inl rfl)).2.2.2.1⟩

/-- C7: a running status with an ignored file while idle emits nothing, yet
records the ignored file as the remembered last file; a later running,
non-ignored file is then reported through a Start callback. -/
theorem ignored_while_idle (re : RegexOracle) (s : MonitorState) (f : String)
    (status status2 : Status) (g : String)
    (hidle : s.last_activity_running = false)
    (hrun : status.running = some true) (hfile : status.file = some f)
    (hf : f ≠ "") (hign : is_ignored_activity re s.ignored_patterns f = true) :
    (handle_status_update re s status).2 = [] ∧
    (handle_status_update re s status).1.last_current_file = some f ∧
    (handle_status_update re s status).1.last_activity_running = false ∧
    (status2.running = some true → status2.file = some g →
      is_ignored_activity re s.ignored_patterns g = false →
      (handle_status_update re (handle_status_update re s status).1 status2).2
        = [Event.start (some g)]) := by
  refine ⟨?_, ?_, ?_, ?_⟩ <;>
    simp only [handle_status_update, hrun, hfile, hidle, fileTruthy,
      Option.getD_some, Bool.not_true, Bool.false_eq_true, if_false]
  · simp [hf, hign]
  · simp [hf, hign]
  · simp [hf, hign]
  · intro hr2 hf2 hign2
    by_cases hg : g = "" <;>
      simp [handle_status_update, hr2, hf2, hf, hign, hign2, fileTruthy, hg]

/-- Witness for C7 at the spec's example, continued with a non-ignored
file. -/
theorem ignored_while_idle_app :
    (handle_status_update litRegex ⟨false, none, ["draft"]⟩
        ⟨some true, some "draft_v2.txt"⟩).2 = [] ∧
    (handle_status_update litRegex
        (handle_status_update litRegex ⟨false, none, ["draft"]⟩
          ⟨some true, some "draft_v2.txt"⟩).1
        ⟨some true, some "normal.txt"⟩).2 = [Event.start (some "normal.txt")] :=
  ⟨(ignored_while_idle litRegex ⟨false, none, ["draft"]⟩ "draft_v2.txt"
      ⟨some true, some "draft_v2.txt"⟩ ⟨some true, some "normal.txt"⟩ "normal.txt"
      rfl rfl rfl (by decide) (by decide)).1,
    (ignored_while_idle litRegex ⟨false, none, ["draft"]⟩ "draft_v2.txt"
      ⟨some true, some "draft_v2.txt"⟩ ⟨some true, some "normal.txt"⟩ "normal.txt"
      rfl rfl rfl (by decide) (by decide)).2.2.2 rfl rfl (by decide)⟩

/-! ## Theorems about the controller callbacks (C9) -/

/-- C9: the controller callbacks are idempotent — `activity_started` while
capturing leaves the state untouched and starts nothing
(`start_timelapse` refuses with `false`), and `activity_stopped` while idle
leaves the state untouched (`stop_timelapse` refuses with `false`). -/
theorem controller_callbacks_idempotent (c : ControllerState)
    (camera : Option CameraVal) (interval : Option ℚ) (auto_mode : Option Bool)
    (activity_file : Option String) (timestamp : String) :
    (c.is_capturing = true →
      activity_started c activity_file timestamp = (c, []) ∧
      start_timelapse c camera interval auto_mode activity_file timestamp
        = (false, c, [])) ∧
    (c.is_capturing = false →
      activity_stopped c = (c, []) ∧
      stop_timelapse c = (false, c, [])) := by
  constructor
  · intro h
    exact ⟨by simp [activity_started, h], by simp [start_timelapse, h]⟩
  · intro h
    exact ⟨by simp [activity_stopped, h], by simp [stop_timelapse, h]⟩

/-- Witness for C9: a capturing auto-mode controller ignores a second start,
and an idle one ignores a stop. -/
theorem controller_callbacks_idempotent_app :
    activity_started ⟨true, true, none, 5, some "timelapse_t"⟩ (some "f.gcode") "t2"
      = (⟨true, true, none, 5, some "timelapse_t"⟩, []) ∧
    stop_timelapse ⟨false, true, none, 5, none⟩
      = (false, ⟨false, true, none, 5, none⟩, []) :=
  ⟨((controller_callbacks_idempotent ⟨true, true, none, 5, some "timelapse_t"⟩
      none none none (some "f.gcode") "t2").1 rfl).1,
    ((controller_callbacks_idempotent ⟨false, true, none, 5, none⟩
      none none none none "t2").2 rfl).2⟩

/-! ## Theorems about camera identifier normalization (C10) -/

/-- Shape of the cases-4/5 fallback: an `ip_camera_` string or a
non-negative index. -/
lemma camera_index_cases45_shape (p : String) (av : List String) (s : String) :
    (camera_index_cases45 p av s = .str s ∧ pyStartsWith s "ip_camera_" = true) ∨
    (∃ n : Nat, camera_index_cases45 p av s = .int n) := by
  unfold camera_index_cases45
  split
  · split
    · exact Or.inl ⟨rfl, by assumption⟩
    · exact Or.inr ⟨_, rfl⟩
  · split
    · rcases hpm : firstPartialMatch av s with _ | i
      · exact Or.inr ⟨0, rfl⟩
      · exact Or.inr ⟨i, rfl⟩
    · exact Or.inr ⟨0, rfl⟩

/-- The cases-4/5 fallback resolves to the default index 0 when the name is
unknown. -/
lemma camera_index_cases45_default (p : String) (av : List String) (s : String)
    (h1 : av.contains s = false)
    (h2 : p = "Windows" → firstPartialMatch av s = none) :
    camera_index_cases45 p av s = .int 0 := by
  unfold camera_index_cases45
  rw [if_neg (by rw [h1]; simp)]
  split
  · rename_i hw
    rw [h2 hw]
  · rfl

/-- C10 counterexample: a negative integer identifier is returned as-is,
so the result is not a non-negative index. -/
theorem get_camera_index_negative :
    get_camera_index "Linux" [] none (some (.int (-1))) = .int (-1) ∧
    (-1 : Int) < 0 :=
  ⟨rfl, by decide⟩

/-- C10 (amended): `_get_camera_index` always returns, yielding either the
identifier itself when it is an `ip_camera_` string, or an integer index;
the index is non-negative unless the caller passed a negative integer
directly or a Linux `/dev/video` path with a negative suffix; and an
identifier matching none of the recognized shapes resolves to the default
index 0. -/
theorem get_camera_index_shape (platform : String) (available_cameras : List String)
    (selected_camera camera : Option CameraVal) :
    ((∃ s, get_camera_index platform available_cameras selected_camera camera = .str s ∧
        pyStartsWith s "ip_camera_" = true) ∨
      (∃ i, get_camera_index platform available_cameras selected_camera camera = .int i)) ∧
    (∀ i : Int, get_camera_index platform available_cameras selected_camera camera = .int i →
      i < 0 →
      camera_to_use selected_camera camera = some (.int i) ∨
      (∃ s, camera_to_use selected_camera camera = some (.str s) ∧
        platform = "Linux" ∧ pyStartsWith s "/dev/video" = true)) ∧
    (∀ s : String, camera_to_use selected_camera camera = some (.str s) →
      pyStartsWith s "ip_camera_" = false →
      isDigitStr s = false →
      ¬(s.toList.contains ':' = true ∧ isDigitStr (splitHead ':' s) = true) →
      ¬(platform = "Linux" ∧ pyStartsWith s "/dev/video" = true) →
      available_cameras.contains s = false →
      (platform = "Windows" → firstPartialMatch available_cameras s = none) →
      get_camera_index platform available_cameras selected_camera camera = .int 0) := by
  refine ⟨?_, ?_, ?_⟩
  · unfold get_camera_index
    rcases camera_to_use selected_camera camera with _ | cv
    · exact Or.inr ⟨0, rfl⟩
    · rcases cv with i | s
      · exact Or.inr ⟨i, rfl⟩
      · dsimp only
        split
        · exact Or.inl ⟨s, rfl, by assumption⟩
        · split
          · exact Or.inr ⟨_, rfl⟩
          · split
            · exact Or.inr ⟨_, rfl⟩
            · split
              · split
                · exact Or.inr ⟨_, rfl⟩
                · rcases camera_index_cases45_shape platform available_cameras s with
                    ⟨he, hip⟩ | ⟨n, he⟩
                  · exact Or.inl ⟨s, he, hip⟩
                  · exact Or.inr ⟨n, he⟩
              · rcases camera_index_cases45_shape platform available_cameras s with
                  ⟨he, hip⟩ | ⟨n, he⟩
                · exact Or.inl ⟨s, he, hip⟩
                · exact Or.inr ⟨n, he⟩
  · intro i hi hneg
    unfold get_camera_index at hi
    rcases hcu : camera_to_use selected_camera camera with _ | cv
    · rw [hcu] at hi
      cases hi
      exact absurd hneg (by decide)
    · rw [hcu] at hi
      rcases cv with j | s
      · cases hi
        exact Or.inl rfl
      · dsimp only at hi
        split at hi
        · cases hi
        · split at hi
          · cases hi
            exact absurd hneg (by simp)
          · split at hi
            · cases hi
              exact absurd hneg (by simp)
            · split at hi
              · rename_i hlinux
                simp only [Bool.and_eq_true, decide_eq_true_eq] at hlinux
                exact Or.inr ⟨s, rfl, hlinux.1, hlinux.2⟩
              · rcases camera_index_cases45_shape platform available_cameras s with
                  ⟨he, _⟩ | ⟨n, he⟩
                · rw [he] at hi; cases hi
                · rw [he] at hi
                  cases hi
                  exact absurd hneg (by simp)
  · intro s hcu hip hdig hcolon hdev hknown hwin
    unfold get_camera_index
    rw [hcu]
    dsimp only
    rw [if_neg (by simp [hip]), if_neg (by simp [hdig]),
      if_neg (by simpa using hcolon), if_neg (by simpa using hdev)]
    exact camera_index_cases45_default platform available_cameras s hknown hwin

/-- Witness for C10: an unrecognized camera name on macOS resolves to 0. -/
theorem get_camera_index_shape_app :
    get_camera_index "Darwin" [] none (some (.str "weird cam")) = .int 0 :=
  (get_camera_index_shape "Darwin" [] none (some (.str "weird cam"))).2.2 "weird cam"
    rfl (by decide) (by decide) (by decide) (by decide) rfl (by decide)

/-! ## Theorems about resolution negotiation (C4) -/

/-- The candidate loop fails only when every candidate fails. -/
lemma try_resolutions_eq_none (cam : Camera) (l : List String)
    (h : ∀ r ∈ l, trialRes cam r = none) : try_resolutions cam l = none := by
  induction l with
  | nil => rfl
  | cons r rest ih =>
    unfold try_resolutions
    rw [h r (by simp)]
    exact ih fun x hx => h x (by simp [hx])

/-- The candidate loop returns the first successful trial. -/
lemma try_resolutions_first (cam : Camera) (l1 : List String) (r : String)
    (l2 : List String) (d : Int × Int)
    (h1 : ∀ x ∈ l1, trialRes cam x = none) (h2 : trialRes cam r = some d) :
    try_resolutions cam (l1 ++ r :: l2) = some d := by
  induction l1 with
  | nil =>
    show try_resolutions cam (r :: l2) = some d
    unfold try_resolutions
    rw [h2]
  | cons a rest ih =>
    show try_resolutions cam (a :: (rest ++ r :: l2)) = some d
    unfold try_resolutions
    rw [h1 a (by simp)]
    exact ih fun x hx => h1 x (by simp [hx])

/-- The candidate list is the requested string followed by the standard
fallbacks with that string erased. -/
lemma build_candidates_eq (s : String) :
    build_candidates s = s :: fallback_resolutions.erase s := by
  unfold build_candidates
  split
  · rfl
  · rename_i hc
    rw [List.erase_of_not_mem (by simpa using hc)]

/-- The candidate list has no duplicates. -/
lemma build_candidates_nodup (s : String) : (build_candidates s).Nodup := by
  rw [build_candidates_eq]
  refine List.nodup_cons.mpr ⟨?_, List.Nodup.erase _ (by decide)⟩
  exact (List.Nodup.not_mem_erase (by decide))

/-- C4: resolution negotiation tries the deduplicated, requested-first
candidate list, keeps the first candidate whose trial read a valid frame
and returns its actually-reported dimensions, and returns the device's
default dimensions when every candidate fails; the function is total, so
it always ends with a defined resolution. -/
theorem set_camera_resolution_spec (cam : Camera) (s : String) :
    build_candidates s = s :: fallback_resolutions.erase s ∧
    (build_candidates s).Nodup ∧
    ((∀ r ∈ build_candidates s, trialRes cam r = none) →
      set_camera_resolution cam s = cam.defaultRes) ∧
    (∀ (l1 : List String) (r : String) (l2 : List String) (d : Int × Int),
      build_candidates s = l1 ++ r :: l2 →
      (∀ x ∈ l1, trialRes cam x = none) →
      trialRes cam r = some d →
      set_camera_resolution cam s = d) := by
  refine ⟨build_candidates_eq s, build_candidates_nodup s, ?_, ?_⟩
  · intro h
    unfold set_camera_resolution
    rw [try_resolutions_eq_none cam _ h]
  · intro l1 r l2 d hsplit h1 h2
    unfold set_camera_resolution
    rw [hsplit, try_resolutions_first cam l1 r l2 d h1 h2]

/-- A concrete camera for the C4 witness: only 1280x720 yields a frame,
reported exactly; defaults are 640x480. -/
def negotiationCamera : Camera :=
  ⟨fun w h => if w = 1280 && h = 720 then some (1280, 720) else none, (640, 480)⟩

/-- Witness for C4: an unsupported request falls through the first two
candidates and keeps 1280x720. -/
theorem set_camera_resolution_spec_app :
    set_camera_resolution negotiationCamera "999x999" = (1280, 720) :=
  (set_camera_resolution_spec negotiationCamera "999x999").2.2.2
    ["999x999", "1920x1080"] "1280x720" ["800x600", "640x480"] (1280, 720)
    (by decide) (by decide) (by decide)

/-! ## Theorems about video cancellation (C3) -/

/-- C3 counterexample: cancelling a session whose registered process has
already exited returns failure but deletes the stale registry entry, so
the registry is not left unchanged. -/
theorem cancel_video_stale_entry_removed :
    (cancel_video [("timelapse_s", ⟨true, false, false⟩)] "timelapse_s").ok = false ∧
    (cancel_video [("timelapse_s", ⟨true, false, false⟩)] "timelapse_s").registry
      ≠ [("timelapse_s", ⟨true, false, false⟩)] :=
  ⟨rfl, by decide⟩

/-- C3 (amended): a cancellation request with no running process returns
failure and writes no status; the registry is unchanged when the session
is unknown, while a present-but-exited entry is removed (other entries are
preserved). -/
theorem cancel_video_no_active_process (reg : List (String × JobEntry)) (sid : String)
    (h : ∀ e, lookupJob sid reg = some e →
      ¬(e.hasProcess = true ∧ e.processRunning = true)) :
    (cancel_video reg sid).ok = false ∧
    (cancel_video reg sid).writes = [] ∧
    (lookupJob sid reg = none → (cancel_video reg sid).registry = reg) ∧
    (lookupJob sid reg ≠ none →
      (∀ e, (sid, e) ∉ (cancel_video reg sid).registry) ∧
      (∀ p ∈ reg, p.1 ≠ sid → p ∈ (cancel_video reg sid).registry)) := by
  unfold cancel_video
  rcases hl : lookupJob sid reg with _ | e
  · simp
  · have hb : (e.hasProcess && e.processRunning) = false := by
      have := h e hl
      rcases hp : e.hasProcess <;> rcases hr : e.processRunning <;> simp_all
    dsimp only
    rw [if_neg (by rw [hb]; simp)]
    refine ⟨rfl, rfl, fun hnone => absurd hnone (by simp), fun _ => ⟨?_, ?_⟩⟩
    · intro e2 hmem
      simp [removeJob, List.mem_filter] at hmem
    · intro p hp hpne
      simp [removeJob, List.mem_filter, hp, hpne]

/-- Witness for C3: cancelling against an empty registry fails and leaves
it empty. -/
theorem cancel_video_no_active_process_app :
    (cancel_video [] "timelapse_s").ok = false ∧
    (cancel_video [] "timelapse_s").registry = [] :=
  ⟨(cancel_video_no_active_process [] "timelapse_s"
      (fun e he => by simp [lookupJob] at he)).1,
    (cancel_video_no_active_process [] "timelapse_s"
      (fun e he => by simp [lookupJob] at he)).2.2.1 rfl⟩

/-! ## Theorems about the encode run (C2, C8) -/

/-- The key of a persisted record consulted by the progress invariant:
the progress value of `processing` records only. -/
def procSel (w : ProgressWrite) : Option ℚ :=
  if w.status = "processing" then w.progress else none

/-- The `processing` records carry exactly the parsed frame counters,
converted to percentages. -/
lemma processing_writes_filter (total : Nat) (lines : List String) :
    (processing_writes total lines).filterMap procSel
      = (lines.filterMap parseFrameLine).map fun n => progressPct total n := by
  induction lines with
  | nil => rfl
  | cons line rest ih =>
    unfold processing_writes at ih ⊢
    rcases h : parseFrameLine line with _ | n <;>
      simp [List.filterMap_cons, h, ih, procSel, processingWrite]

/-- Membership in an encode run's write list splits into the initial
record, a processing record, or the terminal record. -/
lemma mem_create_video_run_writes (reg : List (String × JobEntry)) (sid : String)
    (total : Nat) (lines : List String) (outcome : EncodeOutcome) (w : ProgressWrite)
    (hw : w ∈ (create_video_run reg sid total lines outcome).writes) :
    w = startingWrite ∨ (∃ n ∈ lines.filterMap parseFrameLine, w = processingWrite total n) ∨
    (outcome = .timedOut ∧ w = timeoutWrite) ∨
    (outcome = .cancelled ∧ w = cancelledWrite) ∨
    ((∃ c, outcome = .exited c) ∧ w = completedWrite) := by
  have hmem : ∀ v ∈ processing_writes total lines,
      ∃ n ∈ lines.filterMap parseFrameLine, v = processingWrite total n := by
    intro v hv
    unfold processing_writes at hv
    rw [List.mem_filterMap] at hv
    obtain ⟨line, hline, hvl⟩ := hv
    rcases hn : parseFrameLine line with _ | n
    · rw [hn] at hvl
      simp at hvl
    · rw [hn] at hvl
      simp only [Option.map_some'] at hvl
      cases hvl
      exact ⟨n, List.mem_filterMap.mpr ⟨line, hline, hn⟩, rfl⟩
  rcases outcome with _ | _ | c <;>
    simp only [create_video_run, List.mem_append, List.mem_cons,
      List.not_mem_nil, or_false] at hw
  · rcases hw with (h | h) | h
    · exact Or.inl h
    · exact Or.inr (Or.inl (hmem w h))
    · exact Or.inr (Or.inr (Or.inl ⟨rfl, h⟩))
  · rcases hw with (h | h) | h
    · exact Or.inl h
    · exact Or.inr (Or.inl (hmem w h))
    · exact Or.inr (Or.inr (Or.inr (Or.inl ⟨rfl, h⟩)))
  · rcases hw with (h | h) | h
    · exact Or.inl h
    · exact Or.inr (Or.inl (hmem w h))
    · exact Or.inr (Or.inr (Or.inr (Or.inr ⟨⟨c, rfl⟩, h⟩)))

/-- The percentage is capped at 95. -/
lemma progressPct_le (total n : Nat) : progressPct total n ≤ 95 :=
  min_le_left _ _

/-- The percentage is monotone in the frame counter. -/
lemma progressPct_mono (total : Nat) {n m : Nat} (h : n ≤ m) :
    progressPct total n ≤ progressPct total m := by
  unfold progressPct
  have h0 : (n : ℚ) ≤ (m : ℚ) := by exact_mod_cast h
  refine min_le_min le_rfl ?_
  gcongr

/-- C2 (amended): across one encode run the `processing` progress values
are monotonically non-decreasing (given the parsed frame counter is, as
ffmpeg's is), every `processing` progress is at most 95 and hence below
100, and a progress of 100 appears only on the `completed` record, which
is written only on the exited outcome — regardless of the exit code. -/
theorem video_progress_invariants (reg : List (String × JobEntry)) (sid : String)
    (total : Nat) (lines : List String) (outcome : EncodeOutcome)
    (hmono : (lines.filterMap parseFrameLine).Pairwise (· ≤ ·)) :
    ((create_video_run reg sid total lines outcome).writes.filterMap procSel).Pairwise
      (· ≤ ·) ∧
    (∀ w ∈ (create_video_run reg sid total lines outcome).writes,
      w.status = "processing" → ∃ q, w.progress = some q ∧ q ≤ 95 ∧ q < 100) ∧
    (∀ w ∈ (create_video_run reg sid total lines outcome).writes,
      w.progress = some 100 → w.status = "completed" ∧ ∃ c, outcome = .exited c) := by
  have hfinal : ∀ w ∈ (create_video_run reg sid total lines outcome).writes,
      w = startingWrite ∨
      (∃ n ∈ lines.filterMap parseFrameLine, w = processingWrite total n) ∨
      (outcome = .timedOut ∧ w = timeoutWrite) ∨
      (outcome = .cancelled ∧ w = cancelledWrite) ∨
      ((∃ c, outcome = .exited c) ∧ w = completedWrite) :=
    fun w hw => mem_create_video_run_writes reg sid total lines outcome w hw
  refine ⟨?_, ?_, ?_⟩
  · have hsel : (create_video_run reg sid total lines outcome).writes.filterMap procSel
        = (lines.filterMap parseFrameLine).map fun n => progressPct total n := by
      rcases outcome with _ | _ | c <;>
        simp [create_video_run, List.filterMap_cons, List.filterMap_append,
          processing_writes_filter, procSel, startingWrite, timeoutWrite,
          cancelledWrite, completedWrite]
    rw [hsel, List.pairwise_map]
    exact hmono.imp fun {a b} hab => progressPct_mono total hab
  · intro w hw hst
    rcases hfinal w hw with h | ⟨n, _, h⟩ | ⟨_, h⟩ | ⟨_, h⟩ | ⟨_, h⟩
    · rw [h] at hst; simp [startingWrite] at hst
    · refine ⟨progressPct total n, by rw [h]; rfl, progressPct_le total n, ?_⟩
      exact lt_of_le_of_lt (progressPct_le total n) (by norm_num)
    · rw [h] at hst; simp [timeoutWrite] at hst
    · rw [h] at hst; simp [cancelledWrite] at hst
    · rw [h] at hst; simp [completedWrite] at hst
  · intro w hw hp
    rcases hfinal w hw with h | ⟨n, _, h⟩ | ⟨_, h⟩ | ⟨_, h⟩ | ⟨hc, h⟩
    · rw [h] at hp
      simp only [startingWrite, Option.some.injEq] at hp
      norm_num at hp
    · rw [h] at hp
      simp only [processingWrite, Option.some.injEq] at hp
      have := progressPct_le total n
      rw [hp] at this
      norm_num at this
    · rw [h] at hp; simp [timeoutWrite] at hp
    · rw [h] at hp
      simp only [cancelledWrite, Option.some.injEq] at hp
      norm_num at hp
    · exact ⟨by rw [h]; rfl, hc⟩

/-- Witness for C2: a run that drains one progress line and exits. -/
theorem video_progress_invariants_app :
    ((create_video_run [] "timelapse_s" 10 ["frame=  5 fps=0.0"]
        (.exited 0)).writes.filterMap procSel).Pairwise (· ≤ ·) :=
  (video_progress_invariants [] "timelapse_s" 10 ["frame=  5 fps=0.0"] (.exited 0)
    (by decide)).1

/-- C2 counterexample: `create_video` never consults the exit code — an
encoder that exits with failure code 1 still gets the `completed` record
with progress 100. -/
theorem completed_written_on_failed_exit :
    completedWrite ∈ (create_video_run [] "timelapse_s" 10 [] (.exited 1)).writes ∧
    completedWrite.progress = some 100 ∧
    completedWrite.status = "completed" ∧
    (1 : Int) ≠ 0 := by
  refine ⟨?_, rfl, rfl, by decide⟩
  simp [create_video_run, processing_writes]

/-- C8: on timeout the process is force-killed, the last persisted record
is `failed` with the explicit timeout error, the session's registry entry
is removed (all others preserved) and the call reports failure. -/
theorem create_video_timeout (reg : List (String × JobEntry)) (sid : String)
    (total : Nat) (lines : List String) :
    (create_video_run reg sid total lines .timedOut).killed = true ∧
    (create_video_run reg sid total lines .timedOut).writes.getLast?
      = some timeoutWrite ∧
    timeoutWrite.status = "failed" ∧
    timeoutWrite.error = some "Process timed out after 10 minutes" ∧
    (∀ e, (sid, e) ∉ (create_video_run reg sid total lines .timedOut).registry) ∧
    (∀ p ∈ reg, p.1 ≠ sid →
      p ∈ (create_video_run reg sid total lines .timedOut).registry) ∧
    (create_video_run reg sid total lines .timedOut).success = false := by
  refine ⟨rfl, ?_, rfl, rfl, ?_, ?_, rfl⟩
  · show ((startingWrite :: processing_writes total lines) ++ [timeoutWrite]).getLast?
      = some timeoutWrite
    rw [List.getLast?_concat]
  · intro e hmem
    simp [create_video_run, removeJob, List.mem_filter] at hmem
  · intro p hp hpne
    simp [create_video_run, removeJob, List.mem_filter, hp, hpne]

/-- Witness for C8: a run with one unrelated registry entry keeps it while
its own entry's session id is absent. -/
theorem create_video_timeout_app :
    ("other", (⟨true, true, false⟩ : JobEntry))
      ∈ (create_video_run [("other", ⟨true, true, false⟩)] "timelapse_s" 1 []
          .timedOut).registry :=
  (create_video_timeout [("other", ⟨true, true, false⟩)] "timelapse_s" 1 []).2.2.2.2.2.1
    ("other", ⟨true, true, false⟩) (by decide) (by decide)

end Timelapser
